import Mathlib

/-!
Verification development for the HackUTD-25 feedback-collection client.

The definitions below are a shallow embedding of the JavaScript client code:
JS numbers are modelled as rationals (floating-point representation issues
are abstracted away), dynamic object fields as `Option` values, and JS
exceptions as `Except`.  Truthiness checks (`x || d`, `!x`, `if (x)`) are
modelled explicitly: an absent value and the empty string (resp. the number
zero) are falsy, every other value is truthy.
-/

/-- JS-style truthiness of an optional string field: absent and `""` are
falsy; every other string is truthy. -/
def jsTruthyStr : Option String → Bool
  | none => false
  | some s => !s.isEmpty

/-- JS `x || d` for an optional numeric field `x`: absent and `0` fall back
to the default `d` (zero is falsy in JS); every other number is kept. -/
def jsNumOr (v : Option ℚ) (d : ℚ) : ℚ :=
  match v with
  | none => d
  | some q => if q = 0 then d else q

/-- JS `x || d` for an optional string field `x`: absent and `""` fall back
to the default `d`; every other string is kept. -/
def jsStrOr (v : Option String) (d : String) : String :=
  match v with
  | none => d
  | some s => if s.isEmpty then d else s

/-- Whether the character list `needle` occurs at the start of `hay`. -/
def listStartsWith : List Char → List Char → Bool
  | _, [] => true
  | [], _ :: _ => false
  | a :: as, b :: bs => a == b && listStartsWith as bs

/-- Whether the character list `needle` occurs contiguously anywhere inside
`hay`. -/
def listHasSub : List Char → List Char → Bool
  | [], needle => needle.isEmpty
  | c :: t, needle => listStartsWith (c :: t) needle || listHasSub t needle

/-- JS `hay.includes(needle)` on strings: contiguous substring test. -/
def strIncludes (hay needle : String) : Bool :=
  listHasSub hay.toList needle.toList

/-- JS `Number.prototype.toFixed(1)` followed by `parseFloat`, on a number
modelled as a rational: round to one decimal digit, ties toward plus
infinity (ECMAScript picks the larger candidate on a tie). -/
def fix1 (q : ℚ) : ℚ := ((Int.floor (q * 10 + 1 / 2) : ℤ) : ℚ) / 10

/-- A raw theme object from an insights payload
(`{name, sentiment, count}`), each field possibly absent. -/
structure ThemeVal where
  name : Option String
  sentiment : Option ℚ
  count : Option ℚ
deriving DecidableEq, Repr

/-- A normalized theme as built by `themesData` in
`client/src/components/InsightsCard.js`: the `sentiment` field holds the
percentage value carried by the `toFixed(1)` string (as recovered by
`parseFloat`). -/
structure NormTheme where
  name : String
  sentiment : ℚ
  count : ℚ
deriving DecidableEq, Repr

/-- One theme mapped by `themesData` (InsightsCard.js lines 10–14):
`name: theme.name || 'Unknown'`,
`sentiment: ((theme.sentiment || 0) * 100).toFixed(1)`,
`count: theme.count || 1`. -/
def normTheme (t : ThemeVal) : NormTheme :=
  { name := jsStrOr t.name "Unknown"
  , sentiment := fix1 (jsNumOr t.sentiment 0 * 100)
  , count := jsNumOr t.count 1 }

/-- `themesData` (InsightsCard.js lines 10–14): map the themes of the
insights payload through the normalizer, or `[]` when `themes` is absent. -/
def themesData (themes : Option (List ThemeVal)) : List NormTheme :=
  match themes with
  | some ts => ts.map normTheme
  | none => []

/-- One entry of the sentiment-distribution list: a bucket name and the
value shown for it. -/
structure DistEntry where
  name : String
  value : Nat
deriving DecidableEq, Repr

/-- `sentimentDistribution` (InsightsCard.js lines 16–29): for each of the
three buckets, the `.length` of the normalized themes whose (rounded)
percentage falls in the bucket, keeping only buckets with a positive
value. -/
def sentimentDistribution (td : List NormTheme) : List DistEntry :=
  ([ { name := "Positive"
     , value := (td.filter fun t => decide (10 < t.sentiment)).length }
   , { name := "Neutral"
     , value := (td.filter fun t =>
         decide (-10 ≤ t.sentiment) && decide (t.sentiment ≤ 10)).length }
   , { name := "Negative"
     , value := (td.filter fun t => decide (t.sentiment < -10)).length }
   ]).filter fun e => decide (0 < e.value)

/-- Number of normalized themes falling in the "Positive" bucket
(rounded percentage strictly above 10). -/
def posThemeCount (ts : List ThemeVal) : Nat :=
  (themesData (some ts)).countP fun t => decide (10 < t.sentiment)

/-- Number of normalized themes falling in the "Neutral" bucket
(rounded percentage between -10 and 10 inclusive). -/
def neuThemeCount (ts : List ThemeVal) : Nat :=
  (themesData (some ts)).countP fun t =>
    decide (-10 ≤ t.sentiment) && decide (t.sentiment ≤ 10)

/-- Number of normalized themes falling in the "Negative" bucket
(rounded percentage strictly below -10). -/
def negThemeCount (ts : List ThemeVal) : Nat :=
  (themesData (some ts)).countP fun t => decide (t.sentiment < -10)

/-- The themes of the worked example: sentiments 0.5, -0.5, 0.05 with
counts 2, 3, 1. -/
def exampleThemes : List ThemeVal :=
  [ ⟨some "Checkout", some (1 / 2), some 2⟩
  , ⟨some "Support", some (-(1 / 2)), some 3⟩
  , ⟨some "Docs", some (1 / 20), some 1⟩ ]

theorem themesData_exampleThemes :
    themesData (some exampleThemes)
      = [⟨"Checkout", 50, 2⟩, ⟨"Support", -50, 3⟩, ⟨"Docs", 5, 1⟩] := by
  simp [themesData, exampleThemes, normTheme, jsStrOr, jsNumOr, fix1]
  norm_num
  decide

theorem filter_pos_three (a b c : Nat) (na nb nc : String) :
    (([⟨na, a⟩, ⟨nb, b⟩, ⟨nc, c⟩] : List DistEntry).filter
        fun e => decide (0 < e.value))
      = (if 0 < a then [(⟨na, a⟩ : DistEntry)] else [])
        ++ (if 0 < b then [(⟨nb, b⟩ : DistEntry)] else [])
        ++ (if 0 < c then [(⟨nc, c⟩ : DistEntry)] else []) := by
  by_cases ha : 0 < a <;> by_cases hb : 0 < b <;> by_cases hc : 0 < c <;>
    simp [List.filter, ha, hb, hc]

/-- C1 counterexample: on themes with sentiments [0.5, -0.5, 0.05] and
counts [2, 3, 1] the code produces the distribution
{positive: 1, neutral: 1, negative: 1} (the number of themes per bucket),
not {positive: 2, neutral: 1, negative: 3} as the claim states. -/
theorem c1_distribution_counterexample :
    sentimentDistribution (themesData (some exampleThemes))
        = [⟨"Positive", 1⟩, ⟨"Neutral", 1⟩, ⟨"Negative", 1⟩]
    ∧ sentimentDistribution (themesData (some exampleThemes))
        ≠ [⟨"Positive", 2⟩, ⟨"Neutral", 1⟩, ⟨"Negative", 3⟩] := by
  rw [themesData_exampleThemes]
  norm_num [sentimentDistribution, List.filter]

/-- C1 (amended): for every insights payload, the sentiment-distribution
aggregation reports, per bucket, the NUMBER of themes whose rounded
percentage falls in the bucket — positive for percentage > 10, neutral for
-10 ≤ percentage ≤ 10, negative for percentage < -10 — and omits empty
buckets; themes with sentiments [0.5, -0.5, 0.05] and counts [2, 3, 1]
yield the distribution {positive: 1, neutral: 1, negative: 1}. -/
theorem c1_distribution_counts_themes (ts : List ThemeVal) :
    sentimentDistribution (themesData (some ts))
        = (if 0 < posThemeCount ts
             then [(⟨"Positive", posThemeCount ts⟩ : DistEntry)] else [])
          ++ (if 0 < neuThemeCount ts
                then [(⟨"Neutral", neuThemeCount ts⟩ : DistEntry)] else [])
          ++ (if 0 < negThemeCount ts
                then [(⟨"Negative", negThemeCount ts⟩ : DistEntry)] else [])
    ∧ sentimentDistribution (themesData (some exampleThemes))
        = [⟨"Positive", 1⟩, ⟨"Neutral", 1⟩, ⟨"Negative", 1⟩] := by
  constructor
  · simp only [sentimentDistribution, posThemeCount, neuThemeCount,
      negThemeCount, List.countP_eq_length_filter]
    exact filter_pos_three _ _ _ _ _ _
  · rw [themesData_exampleThemes]
    norm_num [sentimentDistribution, List.filter]

/-- C2 counterexample: a theme with sentiment 5 is not clamped — its
normalized percentage is 500, not 100. -/
theorem c2_no_clamp_counterexample :
    (normTheme ⟨some "Pricing", some 5, some 1⟩).sentiment = 500
    ∧ (normTheme ⟨some "Pricing", some 5, some 1⟩).sentiment ≠ 100 := by
  norm_num [normTheme, jsNumOr, fix1]

/-- C2 (amended): for every theme with a numeric `sentiment`, the
normalizer derives the percentage by multiplying by 100 and rounding to
one decimal place, with NO clamping to [-1, 1]; in particular a theme with
sentiment 5 yields percentage 500. -/
theorem c2_sentiment_not_clamped (t : ThemeVal) (q : ℚ)
    (h : t.sentiment = some q) :
    (normTheme t).sentiment = fix1 (q * 100)
    ∧ (normTheme ⟨some "Pricing", some 5, some 1⟩).sentiment = 500 := by
  constructor
  · by_cases hq : q = 0 <;> simp [normTheme, jsNumOr, h, hq]
  · norm_num [normTheme, jsNumOr, fix1]

/-- C2 witness: the amended statement instantiated at the out-of-range
sentiment 5. -/
theorem c2_sentiment_not_clamped_witness :
    (⟨some "Pricing", some 5, some 1⟩ : ThemeVal).sentiment = some 5
    ∧ (normTheme ⟨some "Pricing", some 5, some 1⟩).sentiment
        = fix1 (5 * 100) :=
  ⟨rfl, (c2_sentiment_not_clamped ⟨some "Pricing", some 5, some 1⟩ 5 rfl).1⟩

/-- C3 counterexample: a theme with count -3 keeps count -3 (the code only
falls back to 1 on JS-falsy counts), contradicting the claim that it is
treated as 1. -/
theorem c3_negative_count_counterexample :
    (normTheme ⟨some "Support", some 0, some (-3)⟩).count = -3
    ∧ (normTheme ⟨some "Support", some 0, some (-3)⟩).count ≠ 1 := by
  norm_num [normTheme, jsNumOr]

/-- C3 (amended): the normalizer defaults `count` to 1 exactly when the
count is missing or zero (JS-falsy); every other numeric count — negative
or fractional included — is kept unchanged; in particular a theme with
count -3 keeps count -3. -/
theorem c3_count_default_only_falsy (t : ThemeVal) :
    ((t.count = none ∨ t.count = some 0) → (normTheme t).count = 1)
    ∧ (∀ q : ℚ, t.count = some q → q ≠ 0 → (normTheme t).count = q)
    ∧ (normTheme ⟨some "Support", some 0, some (-3)⟩).count = -3 := by
  refine ⟨?_, ?_, by norm_num [normTheme, jsNumOr]⟩
  · rintro (h | h) <;> simp [normTheme, jsNumOr, h]
  · intro q h hq
    simp [normTheme, jsNumOr, h, hq]

/-- C3 witness: the amended statement instantiated at a missing count and
at the nonzero count 7. -/
theorem c3_count_default_only_falsy_witness :
    (normTheme ⟨some "Support", none, none⟩).count = 1
    ∧ (normTheme ⟨some "Support", none, some 7⟩).count = 7 :=
  ⟨(c3_count_default_only_falsy ⟨some "Support", none, none⟩).1 (Or.inl rfl),
   (c3_count_default_only_falsy ⟨some "Support", none, some 7⟩).2.1 7 rfl
     (by norm_num)⟩

/-- The `summary` field of an insights payload as delivered by the server:
absent, a string, or (malformed) a number. -/
inductive SumVal where
  | absent
  | str (s : String)
  | num (q : ℚ)
deriving DecidableEq, Repr

/-- An insights payload object: `source`, `reason`, `summary` and `themes`
fields, each possibly absent. -/
structure InsightsVal where
  source : Option String
  reason : Option String
  summary : SumVal
  themes : Option (List ThemeVal)
deriving DecidableEq, Repr

/-- The last conjunct of the insights classifier
(`insightsData.themes?.length === 1 && insightsData.themes[0]?.name ===
'General Feedback'`): exactly one theme whose name equals
"General Feedback". -/
def themesSingleGeneral (i : InsightsVal) : Bool :=
  match i.themes with
  | some [t] => t.name == some "General Feedback"
  | _ => false

/-- `isInsightsFallback`, the submit-time insights classifier (Dashboard
`handleSubmit`, FeedbackHistory.js lines 349–352):
`insightsData.source === 'fallback' || insightsData.reason ||
(!insightsData.source && insightsData.summary?.includes('unavailable')) ||
(!insightsData.source && insightsData.themes?.length === 1 &&
insightsData.themes[0]?.name === 'General Feedback')`, evaluated with JS
short-circuiting.  When `summary` is present but not a string, evaluating
`summary?.includes` throws a `TypeError`, modelled by `Except.error`.
`InsightsCard` has its own, shorter classifier without the themes
disjunct, embedded separately below as `insightsCardIsFallback`. -/
def isInsightsFallback (i : InsightsVal) : Except String Bool :=
  if i.source == some "fallback" then .ok true
  else if jsTruthyStr i.reason then .ok true
  else if !jsTruthyStr i.source then
    match i.summary with
    | .num _ =>
        .error "TypeError: insightsData.summary.includes is not a function"
    | .str s =>
        if strIncludes s "unavailable" then .ok true
        else .ok (themesSingleGeneral i)
    | .absent => .ok (themesSingleGeneral i)
  else .ok false

/-- `isFallback` inside `InsightsCard` (InsightsCard.js lines 6–8):
`insights?.source === 'fallback' || insights?.reason ||
(!insights?.source && insights?.summary?.includes('unavailable'))` —
only three disjuncts; unlike the submit-time classifier it has NO
single-"General Feedback"-theme disjunct.  A present non-string `summary`
with a falsy `source` again throws a `TypeError`. -/
def insightsCardIsFallback (i : InsightsVal) : Except String Bool :=
  if i.source == some "fallback" then .ok true
  else if jsTruthyStr i.reason then .ok true
  else if !jsTruthyStr i.source then
    match i.summary with
    | .num _ =>
        .error "TypeError: insights.summary.includes is not a function"
    | .str s => .ok (strIncludes s "unavailable")
    | .absent => .ok false
  else .ok false

/-- Whether the summary field is not a (malformed) number, i.e. is absent
or a string. -/
def summaryNotNum : SumVal → Bool
  | .num _ => false
  | _ => true

/-- Modelled from the spec's words (for comparison with the source-derived
classifiers): the disjunction of the first three fallback conditions,
which both insights classifiers share, with "reason present" read as a
truthy reason and "no source" as an absent or empty source. -/
def specCommonFallbackCond (i : InsightsVal) : Bool :=
  (i.source == some "fallback")
  || jsTruthyStr i.reason
  || (!jsTruthyStr i.source
      && (match i.summary with
          | .str s => strIncludes s "unavailable"
          | _ => false))

/-- Modelled from the spec's words: the fourth fallback condition — no
(truthy) source and exactly one theme named "General Feedback" —
restricted to summaries on which the submit-time expression evaluates
without throwing.  Only the submit-time classifier tests it. -/
def specGeneralThemeCond (i : InsightsVal) : Bool :=
  !jsTruthyStr i.source && summaryNotNum i.summary && themesSingleGeneral i

/-- A falsy optional string can never equal `some "fallback"` under JS
strict equality, since `"fallback"` is non-empty. -/
theorem beq_fallback_of_not_truthy {o : Option String}
    (h : jsTruthyStr o = false) : (o == some "fallback") = false := by
  cases o with
  | none => rfl
  | some s =>
    simp only [jsTruthyStr, Bool.not_eq_false'] at h
    rw [String.isEmpty_iff] at h
    subst h
    rfl

/-- `Except.isOk` written out for the classifier's result type. -/
def exceptOk : Except String Bool → Bool
  | .ok _ => true
  | .error _ => false

/-- The raw `data.insights` value before normalization: absent, an object,
or a string that `JSON.parse` rejects. -/
inductive InsightsRaw where
  | absent
  | obj (v : InsightsVal)
  | badStr (s : String)

/-- The empty insights object `{}`. -/
def emptyInsights : InsightsVal := ⟨none, none, .absent, none⟩

/-- The normalization in Dashboard `handleSubmit`:
`let insightsData = data.insights || {}` followed by
`JSON.parse` with a `catch` that falls back to `{}` when `data.insights`
is a string that does not parse. -/
def normalizeInsights : InsightsRaw → InsightsVal
  | .obj v => v
  | _ => emptyInsights

/-- C6 counterexample: a payload with no source, no reason, no summary,
and exactly one theme named "General Feedback" is classified as fallback
by the submit-time classifier but NOT by InsightsCard's classifier (which
lacks the themes disjunct), so the claim's fourth condition is false for
the InsightsCard classifier named in its sources; additionally, a
present-but-empty `reason` is falsy and classifies as not fallback under
both, refuting the claim's "reason field is present" condition. -/
theorem c6_general_theme_counterexample :
    insightsCardIsFallback
        ⟨none, none, .absent, some [⟨some "General Feedback", none, none⟩]⟩
      = .ok false
    ∧ isInsightsFallback
        ⟨none, none, .absent, some [⟨some "General Feedback", none, none⟩]⟩
      = .ok true
    ∧ insightsCardIsFallback
        ⟨none, none, .absent, some [⟨some "General Feedback", none, none⟩]⟩
      ≠ .ok true
    ∧ (⟨none, some "", .absent, none⟩ : InsightsVal).reason.isSome = true
    ∧ isInsightsFallback ⟨none, some "", .absent, none⟩ = .ok false
    ∧ insightsCardIsFallback ⟨none, some "", .absent, none⟩ = .ok false := by
  refine ⟨rfl, rfl, fun h => ?_, rfl, rfl, rfl⟩
  rw [show insightsCardIsFallback
        ⟨none, none, .absent, some [⟨some "General Feedback", none, none⟩]⟩
        = .ok false from rfl] at h
  exact Bool.false_ne_true (Except.ok.inj h)

/-- C6 (amended): both insights classifiers — the submit-time one and
InsightsCard's — report fallback = true whenever the `source` field equals
"fallback" (regardless of all other fields), a truthy (non-empty) `reason`
field is present, or the `source` is absent or empty and the summary is a
string containing "unavailable"; only the submit-time classifier
additionally reports fallback = true when the `source` is absent or empty,
the summary is absent or a string, and there is exactly one theme whose
name equals "General Feedback". -/
theorem c6_insights_fallback_conditions (i : InsightsVal)
    (hc : specCommonFallbackCond i = true) :
    (isInsightsFallback i = .ok true
     ∧ insightsCardIsFallback i = .ok true)
    ∧ ∀ j : InsightsVal, specGeneralThemeCond j = true →
        isInsightsFallback j = .ok true := by
  constructor
  · simp only [specCommonFallbackCond, Bool.or_eq_true, Bool.and_eq_true,
      Bool.not_eq_true'] at hc
    rcases hc with (h | h) | ⟨h1, h2⟩
    · exact ⟨by simp [isInsightsFallback, h],
        by simp [insightsCardIsFallback, h]⟩
    · refine ⟨?_, ?_⟩ <;> by_cases hs : i.source == some "fallback" <;>
        simp [isInsightsFallback, insightsCardIsFallback, hs, h]
    · have hsf := beq_fallback_of_not_truthy h1
      cases hsum : i.summary with
      | num q => rw [hsum] at h2; exact absurd h2 (by simp)
      | str s =>
          rw [hsum] at h2
          simp only [] at h2
          refine ⟨?_, ?_⟩ <;> by_cases hr : jsTruthyStr i.reason <;>
            simp [isInsightsFallback, insightsCardIsFallback, hsf, hr,
              h1, hsum, h2]
      | absent => rw [hsum] at h2; exact absurd h2 (by simp)
  · intro j hj
    simp only [specGeneralThemeCond, Bool.and_eq_true, Bool.not_eq_true']
      at hj
    obtain ⟨⟨h1, h2⟩, h3⟩ := hj
    unfold isInsightsFallback
    rw [beq_fallback_of_not_truthy h1]
    by_cases hr : jsTruthyStr j.reason
    · simp [hr]
    · cases hsum : j.summary with
      | num q => rw [hsum] at h2; exact absurd h2 (by simp [summaryNotNum])
      | str s =>
          simp only [hr, if_false, h1, Bool.not_false, if_true]
          split <;> simp [h3]
      | absent => simp [hr, h1, h3]

/-- C6 witness: the shared conditions instantiated at a payload with
`source: "fallback"`, and the submit-time-only condition instantiated at
the single-"General Feedback"-theme payload. -/
theorem c6_insights_fallback_conditions_witness :
    specCommonFallbackCond ⟨some "fallback", none, .num 7, some []⟩ = true
    ∧ isInsightsFallback ⟨some "fallback", none, .num 7, some []⟩ = .ok true
    ∧ insightsCardIsFallback ⟨some "fallback", none, .num 7, some []⟩
        = .ok true
    ∧ specGeneralThemeCond
        ⟨none, none, .absent, some [⟨some "General Feedback", none, none⟩]⟩
        = true
    ∧ isInsightsFallback
        ⟨none, none, .absent, some [⟨some "General Feedback", none, none⟩]⟩
        = .ok true :=
  ⟨rfl,
   (c6_insights_fallback_conditions ⟨some "fallback", none, .num 7, some []⟩
      rfl).1.1,
   (c6_insights_fallback_conditions ⟨some "fallback", none, .num 7, some []⟩
      rfl).1.2,
   rfl,
   (c6_insights_fallback_conditions ⟨some "fallback", none, .num 7, some []⟩
      rfl).2
     ⟨none, none, .absent, some [⟨some "General Feedback", none, none⟩]⟩
     rfl⟩

/-- `isStoryFallback` (Dashboard `handleSubmit`, FeedbackHistory.js lines
336–339): `storyText.includes('[Fallback]') ||
storyText.includes('As a user, I want to address') || !storyText ||
storyText.length < 50`, where `storyText = data.user_story || ''`.  This
is the restriction to absent-or-string `user_story` values;
`isStoryFallbackDyn` below extends the embedding to dynamically typed
values, where the source expression can throw. -/
def isStoryFallback (userStory : Option String) : Bool :=
  let storyText := userStory.getD ""
  strIncludes storyText "[Fallback]"
  || strIncludes storyText "As a user, I want to address"
  || storyText.isEmpty
  || decide (storyText.length < 50)

/-- The props object passed to `StoryCard`
(`{story, source, reason}`). -/
structure StoryProp where
  story : Option String
  source : Option String
  reason : Option String
deriving DecidableEq, Repr

/-- `isFallback` inside `StoryCard`: `story.source === 'fallback' ||
story.story?.includes('[Fallback]') ||
story.story?.includes('As a user, I want to address') ||
story.reason`. -/
def storyCardIsFallback (p : StoryProp) : Bool :=
  (p.source == some "fallback")
  || (match p.story with
      | some s => strIncludes s "[Fallback]"
      | none => false)
  || (match p.story with
      | some s => strIncludes s "As a user, I want to address"
      | none => false)
  || jsTruthyStr p.reason

/-- The `storyData` object built in Dashboard `handleSubmit` and handed to
`StoryCard`: `{story: storyText, source: isStoryFallback ? 'fallback' :
'openai', reason: isStoryFallback ? 'API unavailable' : undefined}`. -/
def storyDataOf (userStory : Option String) : StoryProp :=
  let storyText := userStory.getD ""
  { story := some storyText
  , source := some (if isStoryFallback userStory then "fallback"
                    else "openai")
  , reason := if isStoryFallback userStory then some "API unavailable"
              else none }

/-- C5: for every story payload whose text is absent or shorter than 50
characters, the submit-time story classifier reports fallback = true, and
consequently `StoryCard` (which receives `source: 'fallback'` from the
story data built at submit time) also reports fallback = true. -/
theorem c5_short_story_is_fallback (us : Option String)
    (h : (us.getD "").length < 50) :
    isStoryFallback us = true
    ∧ storyCardIsFallback (storyDataOf us) = true := by
  have h1 : isStoryFallback us = true := by
    simp [isStoryFallback, h]
  refine ⟨h1, ?_⟩
  simp [storyCardIsFallback, storyDataOf, h1]

/-- C5 witness: the claim instantiated at an absent story text. -/
theorem c5_short_story_is_fallback_witness :
    ((none : Option String).getD "").length < 50
    ∧ (isStoryFallback none = true
       ∧ storyCardIsFallback (storyDataOf none) = true) :=
  ⟨by decide, c5_short_story_is_fallback none (by decide)⟩

/-- The story classifier over a dynamically typed `data.user_story`
(absent, string, or — malformed — number): `data.user_story || ''`
coerces every falsy value (absent, `''`, the number 0) to `''`, so those
and all strings reduce to `isStoryFallback`; a truthy non-string value is
kept as `storyText`, and `storyText.includes('[Fallback]')` then throws a
`TypeError`, modelled by `Except.error`. -/
def isStoryFallbackDyn : SumVal → Except String Bool
  | .str s => .ok (isStoryFallback (some s))
  | .absent => .ok (isStoryFallback none)
  | .num q =>
      if q = 0 then .ok (isStoryFallback none)
      else .error "TypeError: storyText.includes is not a function"

/-- Whether a dynamic `user_story` value avoids the non-string
`.includes` TypeError: absent, a string, or the falsy number 0. -/
def storyNotTruthyNum : SumVal → Bool
  | .num q => q == 0
  | _ => true

/-- C9 counterexample: a numeric `summary` with no `source` makes the
insights classifier throw a TypeError, and a truthy numeric `user_story`
makes the story classifier throw a TypeError (`||`/`?.` only guard falsy
or nullish values, not types), contradicting the claim that
classification never raises on malformed fields. -/
theorem c9_nonstring_fields_raise :
    isInsightsFallback ⟨none, none, .num 42, none⟩
      = .error "TypeError: insightsData.summary.includes is not a function"
    ∧ isStoryFallbackDyn (.num 42)
      = .error "TypeError: storyText.includes is not a function"
    ∧ exceptOk (isInsightsFallback ⟨none, none, .num 42, none⟩) = false := by
  refine ⟨rfl, ?_, rfl⟩
  norm_num [isStoryFallbackDyn]

/-- C9 (amended): the classifiers are pure, deterministic Lean functions;
the story classifier never raises as long as `user_story` is absent, a
string, or the falsy number 0, and the insights classifier never raises
as long as the `summary` field is absent or a string — in particular an
unparseable-JSON-string insights value normalizes to `{}` and is
classified as not fallback, as is an absent insights value — but each
throws a TypeError on a present, truthy non-string field (`user_story`
resp. `summary`). -/
theorem c9_classifier_graceful_on_wellformed (i : InsightsVal)
    (us : SumVal) (h : summaryNotNum i.summary = true)
    (hus : storyNotTruthyNum us = true) :
    exceptOk (isInsightsFallback i) = true
    ∧ exceptOk (isStoryFallbackDyn us) = true
    ∧ (∀ s : String, isInsightsFallback (normalizeInsights (.badStr s))
         = .ok false)
    ∧ isInsightsFallback (normalizeInsights .absent) = .ok false := by
  refine ⟨?_, ?_, fun s => rfl, rfl⟩
  · unfold isInsightsFallback
    by_cases h1 : i.source == some "fallback"
    · simp [h1, exceptOk]
    · by_cases h2 : jsTruthyStr i.reason
      · simp [h1, h2, exceptOk]
      · by_cases h3 : jsTruthyStr i.source
        · simp [h1, h2, h3, exceptOk]
        · cases hs : i.summary with
          | num q => rw [hs] at h; exact absurd h (by simp [summaryNotNum])
          | str s =>
              by_cases h4 : strIncludes s "unavailable" <;>
                simp [h1, h2, h3, hs, h4, exceptOk]
          | absent => simp [h1, h2, h3, hs, exceptOk]
  · cases us with
    | str s => rfl
    | absent => rfl
    | num q =>
        have hq : q = 0 := by simpa [storyNotTruthyNum] using hus
        simp [isStoryFallbackDyn, hq, exceptOk]

/-- C9 witness: the amended statement instantiated at the empty insights
object `{}` and an absent story text. -/
theorem c9_classifier_graceful_on_wellformed_witness :
    summaryNotNum emptyInsights.summary = true
    ∧ storyNotTruthyNum .absent = true
    ∧ exceptOk (isInsightsFallback emptyInsights) = true
    ∧ exceptOk (isStoryFallbackDyn .absent) = true :=
  ⟨rfl, rfl,
   (c9_classifier_graceful_on_wellformed emptyInsights .absent rfl rfl).1,
   (c9_classifier_graceful_on_wellformed emptyInsights .absent rfl rfl).2.1⟩

/-- The persisted browser-origin key-value store: the `token` and `user`
entries of `localStorage`. -/
structure Storage where
  token : Option String
  user : Option String
deriving DecidableEq, Repr

/-- The in-memory React state of `AuthProvider`
(`user`, `token`, `loading`). -/
structure AuthState where
  user : Option String
  token : Option String
  loading : Bool
deriving DecidableEq, Repr

/-- `isAuthenticated: !!token` from the `AuthProvider` context value. -/
def isAuthenticated (s : AuthState) : Bool := jsTruthyStr s.token

/-- The three session phases of the spec's state machine. -/
inductive Phase where
  | loading
  | anonymous
  | authenticated
deriving DecidableEq, Repr

/-- The phase of an in-memory session: Loading while the loading flag is
set, otherwise Authenticated iff `!!token`. -/
def sessionPhase (s : AuthState) : Phase :=
  if s.loading then .loading
  else if isAuthenticated s then .authenticated else .anonymous

/-- The `AuthProvider` state right after mount:
`user = null`, `loading = true`, `token = localStorage.getItem('token')`. -/
def mountState (st : Storage) : AuthState :=
  { user := none, token := st.token, loading := true }

/-- `checkAuth` (AuthContext.js lines 19–38), with the result of
`authAPI.getCurrentUser()` passed in as an `Except`: if a stored token is
truthy, a successful call sets the user and re-sets the token, and a
failed call (network error or non-intercepted error) removes the
persisted token and user — but changes no in-memory state; in every case
`loading` becomes false and no exception escapes the `try`/`catch`. -/
def checkAuth (st : Storage) (s : AuthState) (api : Except Unit String) :
    Storage × AuthState :=
  if jsTruthyStr st.token then
    match api with
    | .ok u =>
        (st, { s with user := some u, token := st.token, loading := false })
    | .error _ =>
        (⟨none, none⟩, { s with loading := false })
  else (st, { s with loading := false })

/-- `initialize()`: mount the provider from persisted storage, then run
`checkAuth` once. -/
def initAuth (st : Storage) (api : Except Unit String) :
    Storage × AuthState :=
  checkAuth st (mountState st) api

/-- `logout` (AuthContext.js lines 82–87): remove the persisted token and
user and null the in-memory user and token.  It takes no API outcome:
no server round-trip is involved. -/
def logout (st : Storage) (s : AuthState) : Storage × AuthState :=
  (⟨none, none⟩, { s with user := none, token := none })

/-- C4 counterexample: starting from a stored session with token "t" and
a failing validation call (network error), `initialize()` clears the
persisted pair but the resulting in-memory session still has the mounted
token, so it is Authenticated, not Anonymous as the claim states. -/
theorem c4_failed_validation_counterexample :
    (initAuth ⟨some "t", some "u"⟩ (.error ())).1 = ⟨none, none⟩
    ∧ sessionPhase (initAuth ⟨some "t", some "u"⟩ (.error ())).2
        = .authenticated
    ∧ sessionPhase (initAuth ⟨some "t", some "u"⟩ (.error ())).2
        ≠ .anonymous := by
  refine ⟨rfl, rfl, fun h => ?_⟩
  rw [show sessionPhase (initAuth ⟨some "t", some "u"⟩ (.error ())).2
        = .authenticated from rfl] at h
  exact Phase.noConfusion h

/-- C4 (amended): for every stored session, `initialize()` completes with
the loading flag false and the session in exactly one of the Anonymous or
Authenticated phases, and no exception surfaces (the embedding is a total
function); if the persisted-token validation call fails, the persisted
token and user are cleared, but the in-memory token read at mount is
retained, so the session ends Authenticated with no user record — only a
later startup from the now-cleared storage is Anonymous. -/
theorem c4_initialize_resolves (st : Storage) (api : Except Unit String) :
    (initAuth st api).2.loading = false
    ∧ (sessionPhase (initAuth st api).2 = .anonymous
       ∨ sessionPhase (initAuth st api).2 = .authenticated)
    ∧ (jsTruthyStr st.token = true → api = .error () →
        (initAuth st api).1 = ⟨none, none⟩
        ∧ (initAuth st api).2.user = none
        ∧ sessionPhase (initAuth st api).2 = .authenticated
        ∧ ∀ api2 : Except Unit String,
            sessionPhase (initAuth (initAuth st api).1 api2).2
              = .anonymous) := by
  by_cases ht : jsTruthyStr st.token
  · cases api with
    | ok u =>
        refine ⟨by simp [initAuth, checkAuth, ht], ?_, ?_⟩
        · right
          simp [initAuth, checkAuth, ht, sessionPhase, isAuthenticated,
            mountState]
        · intro _ hapi
          exact absurd hapi (by simp)
    | error e =>
        refine ⟨by simp [initAuth, checkAuth, ht], ?_, ?_⟩
        · right
          simp [initAuth, checkAuth, ht, sessionPhase, isAuthenticated,
            mountState, ht]
        · intro _ _
          refine ⟨by simp [initAuth, checkAuth, ht],
            by simp [initAuth, checkAuth, ht, mountState],
            by simp [initAuth, checkAuth, ht, sessionPhase,
              isAuthenticated, mountState], fun api2 => ?_⟩
          have hst : (initAuth st (Except.error e)).1 = ⟨none, none⟩ := by
            simp [initAuth, checkAuth, ht]
          rw [hst]
          rfl
  · refine ⟨by simp [initAuth, checkAuth, ht], ?_, ?_⟩
    · left
      simp [initAuth, checkAuth, ht, sessionPhase, isAuthenticated,
        mountState]
    · intro h _
      exact absurd h (by simp [ht])

/-- C4 witness: the amended statement instantiated at a stored token "t"
and a failing validation call. -/
theorem c4_initialize_resolves_witness :
    jsTruthyStr (some "t") = true
    ∧ ((initAuth ⟨some "t", some "u"⟩ (.error ())).2.loading = false
       ∧ (sessionPhase (initAuth ⟨some "t", some "u"⟩ (.error ())).2
            = .anonymous
          ∨ sessionPhase (initAuth ⟨some "t", some "u"⟩ (.error ())).2
            = .authenticated)) :=
  ⟨rfl, (c4_initialize_resolves ⟨some "t", some "u"⟩ (.error ())).1.symm ▸
    ⟨(c4_initialize_resolves ⟨some "t", some "u"⟩ (.error ())).1,
     (c4_initialize_resolves ⟨some "t", some "u"⟩ (.error ())).2.1⟩⟩

/-- C7: for every prior persisted and in-memory session state, `logout()`
clears the persisted token and user and nulls the in-memory user and
token, leaving an unauthenticated session (Anonymous whenever the session
was not in its initial loading phase); it is a pure synchronous step with
no server interaction (its embedding takes no API outcome). -/
theorem c7_logout_always_anonymous (st : Storage) (s : AuthState) :
    (logout st s).1 = ⟨none, none⟩
    ∧ (logout st s).2.token = none
    ∧ (logout st s).2.user = none
    ∧ isAuthenticated (logout st s).2 = false
    ∧ (s.loading = false → sessionPhase (logout st s).2 = .anonymous) := by
  refine ⟨rfl, rfl, rfl, rfl, fun h => ?_⟩
  simp [logout, sessionPhase, isAuthenticated, jsTruthyStr, h]

/-- C7 witness: `logout()` from a fully authenticated non-loading
session. -/
theorem c7_logout_always_anonymous_witness :
    ((⟨some "u", some "t", false⟩ : AuthState)).loading = false
    ∧ sessionPhase
        (logout ⟨some "t", some "u"⟩ ⟨some "u", some "t", false⟩).2
        = .anonymous :=
  ⟨rfl, (c7_logout_always_anonymous ⟨some "t", some "u"⟩
      ⟨some "u", some "t", false⟩).2.2.2.2 rfl⟩

/-- A failed axios response as seen by the response interceptor:
`error.response?.status` (absent when no response was received) and the
URL of the request it belongs to (never read by the interceptor — the
handling is identical for every call site). -/
structure HttpFailure where
  status : Option Nat
  url : String
deriving DecidableEq, Repr

/-- The axios response-error interceptor (api.js lines 31–42): on status
401 it removes the persisted token and user and sets
`window.location.href = '/login'` (a forced full navigation, returned
here as the target location); otherwise it only re-rejects. -/
def respFailureHandler (e : HttpFailure) (st : Storage) :
    Storage × Option String :=
  if e.status == some 401 then (⟨none, none⟩, some "/login")
  else (st, none)

/-- C8: for every inbound failed response on every endpoint, a 401 status
makes the wrapper clear the persisted token and user and force a full
navigation to the login view, independently of the call site (the
interceptor never reads the request URL); the full navigation reloads the
application, and initializing from the cleared storage yields an
Anonymous session whatever the subsequent validation call would return. -/
theorem c8_401_forces_logout (e : HttpFailure) (st : Storage)
    (s : AuthState) (api : Except Unit String)
    (h : e.status = some 401) (hauth : isAuthenticated s = true) :
    (respFailureHandler e st).1 = ⟨none, none⟩
    ∧ (respFailureHandler e st).2 = some "/login"
    ∧ sessionPhase (initAuth (respFailureHandler e st).1 api).2
        = .anonymous := by
  have h1 : respFailureHandler e st = (⟨none, none⟩, some "/login") := by
    simp [respFailureHandler, h]
  rw [h1]
  exact ⟨rfl, rfl, rfl⟩

/-- C8 witness: a 401 on the history endpoint while authenticated. -/
theorem c8_401_forces_logout_witness :
    (⟨some 401, "/feedback/history"⟩ : HttpFailure).status = some 401
    ∧ isAuthenticated ⟨some "u", some "t", false⟩ = true
    ∧ (respFailureHandler ⟨some 401, "/feedback/history"⟩
        ⟨some "t", some "u"⟩).1 = ⟨none, none⟩ :=
  ⟨rfl, rfl,
    (c8_401_forces_logout ⟨some 401, "/feedback/history"⟩
      ⟨some "t", some "u"⟩ ⟨some "u", some "t", false⟩ (.ok "u")
      rfl rfl).1⟩

/-- A cached feedback-history entry (only the fields the delete handler
touches are modelled). -/
structure FeedbackItem where
  id : Nat
  text : String
deriving DecidableEq, Repr

/-- The component state of `FeedbackHistory` that `handleDeleteConfirm`
reads or writes. -/
structure HistState where
  history : List FeedbackItem
  selectedFeedback : Option FeedbackItem
  feedbackToDelete : Option Nat
  deleteDialogOpen : Bool
  error : String
deriving DecidableEq, Repr

/-- Outcome of the awaited `feedbackAPI.deleteFeedback` call. -/
inductive DeleteOutcome where
  | success
  | failure

/-- `handleDeleteConfirm` (FeedbackHistory.js lines 61–76): early-return
when `feedbackToDelete` is falsy (absent, or the number 0); on a
successful delete, filter the cached list by `item.id !==
feedbackToDelete`, clear the selection when its id matches, close the
dialog and reset `feedbackToDelete`; on a failed delete, only set the
error message. -/
def handleDeleteConfirm (s : HistState) (r : DeleteOutcome) : HistState :=
  match s.feedbackToDelete with
  | none => s
  | some i =>
    if i == 0 then s
    else
      match r with
      | .success =>
          { s with
            history := s.history.filter fun item => item.id != i
            selectedFeedback :=
              if (s.selectedFeedback.map FeedbackItem.id) == some i
                then none else s.selectedFeedback
            deleteDialogOpen := false
            feedbackToDelete := none }
      | .failure => { s with error := "Failed to delete feedback" }

/-- C10: for every cached history list and pending (truthy) feedback id, a
successful delete removes every item with that id from the cached list,
keeps every other item in its relative order, and clears the selection
exactly when the selected feedback has that id; a failed delete leaves
both the cached list and the selection unchanged. -/
theorem c10_delete_updates_cache (s : HistState) (i : Nat)
    (hdel : s.feedbackToDelete = some i) (hi : i ≠ 0) :
    (∀ it ∈ (handleDeleteConfirm s .success).history, it.id ≠ i)
    ∧ (∀ it ∈ s.history, it.id ≠ i →
        it ∈ (handleDeleteConfirm s .success).history)
    ∧ (handleDeleteConfirm s .success).history.Sublist s.history
    ∧ (s.selectedFeedback.map FeedbackItem.id = some i →
        (handleDeleteConfirm s .success).selectedFeedback = none)
    ∧ (s.selectedFeedback.map FeedbackItem.id ≠ some i →
        (handleDeleteConfirm s .success).selectedFeedback
          = s.selectedFeedback)
    ∧ (handleDeleteConfirm s .failure).history = s.history
    ∧ (handleDeleteConfirm s .failure).selectedFeedback
        = s.selectedFeedback := by
  have hne : (i == 0) = false := by simpa using hi
  have hsucc :
      (handleDeleteConfirm s .success).history
        = s.history.filter fun item => item.id != i := by
    simp [handleDeleteConfirm, hdel, hne]
  have hsel :
      (handleDeleteConfirm s .success).selectedFeedback
        = if (s.selectedFeedback.map FeedbackItem.id) == some i
            then none else s.selectedFeedback := by
    simp [handleDeleteConfirm, hdel, hne]
  refine ⟨?_, ?_, ?_, ?_, ?_, ?_, ?_⟩
  · intro it hit
    rw [hsucc] at hit
    have := (List.mem_filter.mp hit).2
    simpa using this
  · intro it hmem hne2
    rw [hsucc]
    exact List.mem_filter.mpr ⟨hmem, by simpa using hne2⟩
  · rw [hsucc]
    exact List.filter_sublist _
  · intro hmatch
    rw [hsel, hmatch]
    simp
  · intro hmatch
    rw [hsel]
    simp [hmatch]
  · simp [handleDeleteConfirm, hdel, hne]
  · simp [handleDeleteConfirm, hdel, hne]

/-- C10 witness: deleting the selected item with id 2 from a two-item
cache. -/
theorem c10_delete_updates_cache_witness :
    (⟨[⟨1, "a"⟩, ⟨2, "b"⟩], some ⟨2, "b"⟩, some 2, true, ""⟩
        : HistState).feedbackToDelete = some 2
    ∧ (2 : Nat) ≠ 0
    ∧ (handleDeleteConfirm
        ⟨[⟨1, "a"⟩, ⟨2, "b"⟩], some ⟨2, "b"⟩, some 2, true, ""⟩
        .failure).history
        = (⟨[⟨1, "a"⟩, ⟨2, "b"⟩], some ⟨2, "b"⟩, some 2, true, ""⟩
            : HistState).history :=
  ⟨rfl, by decide,
    (c10_delete_updates_cache
      ⟨[⟨1, "a"⟩, ⟨2, "b"⟩], some ⟨2, "b"⟩, some 2, true, ""⟩ 2 rfl
      (by decide)).2.2.2.2.2.1⟩
